import Mathlib

/-!
Shallow embedding of the flight-price-iq prediction engine.

Conventions used throughout this development:
* JavaScript numbers are modelled as exact rationals (`ℚ`); the few places
  where the source calls `Math.sqrt` are modelled with `Real.sqrt` (those
  definitions are `noncomputable`).
* `Math.round x` is `⌊x + 1/2⌋` (JS rounds halves toward +∞).
* `Math.ceil` is `⌈·⌉`, `Math.max`/`Math.min` are `max`/`min`.
* Calendar arithmetic (`new Date(...)`, `getMonth`, `setDate`, `Date.now`)
  is abstracted: a date is a record carrying the fields the code actually
  reads (its 1-based month and its epoch-milliseconds timestamp), and the
  month of "today minus 7·i days" is supplied as an opaque function.
* `Math.random()` draws are threaded explicitly as parameters.
* Division by zero yields 0 in `ℚ`/`ℝ` (JS would give `Infinity`/`NaN`);
  every place where this matters is noted at the definition.
-/

/-- JS `Math.round`: round half toward +∞. -/
def jsRound (x : ℚ) : ℤ := ⌊x + 1/2⌋

/-- `Math.round(x * 100) / 100` — round to two decimals. -/
def round2 (x : ℚ) : ℚ := (jsRound (x * 100) : ℚ) / 100

/-- `Math.round(x * 10000) / 100` — a fraction as a percentage with two decimals. -/
def roundPct2 (x : ℚ) : ℚ := (jsRound (x * 10000) : ℚ) / 100

/-- A JS `Date`, reduced to the two observations the engine makes of it:
`getMonth() + 1` and `getTime()`. -/
structure JSDate where
  month : ℕ
  timeMs : ℤ
  deriving DecidableEq

/-- Recommendation enum of the engine. -/
inductive Rec where
  | BUY_NOW
  | WAIT
  deriving DecidableEq, Repr

namespace PricePredictionService

/-- `RouteAnalysis` record of `FlightPriceIQ.ts`. -/
structure RouteAnalysis where
  route : String
  month : ℕ
  averagePrice : ℚ
  minPrice : ℚ
  maxPrice : ℚ
  priceVariation : ℚ
  deriving DecidableEq

instance : Inhabited RouteAnalysis := ⟨⟨"", 0, 0, 0, 0, 0⟩⟩

/-- `priceRange` component of a prediction. -/
structure PriceRange where
  min : ℚ
  max : ℚ
  average : ℚ
  deriving DecidableEq

/-- `PricePrediction` output record. -/
structure PricePrediction where
  currentPrice : ℚ
  currency : String
  timestamp : String
  probabilityIncrease : ℚ
  probabilityDecrease : ℚ
  confidence : ℚ
  recommendation : Rec
  historicalContext : String
  priceRange : PriceRange
  deriving DecidableEq

/-- The hardcoded `HISTORICAL_DATA` table: per-route per-month profiles. -/
def HISTORICAL_DATA_pairs : List (String × List RouteAnalysis) :=
  [ ("LHR-KUL",
     [ ⟨"LHR-KUL", 1, 650, 580, 720, 15/100⟩, ⟨"LHR-KUL", 2, 620, 550, 690, 18/100⟩,
       ⟨"LHR-KUL", 3, 680, 610, 750, 16/100⟩, ⟨"LHR-KUL", 4, 720, 650, 790, 14/100⟩,
       ⟨"LHR-KUL", 5, 750, 680, 820, 13/100⟩, ⟨"LHR-KUL", 6, 820, 750, 890, 12/100⟩,
       ⟨"LHR-KUL", 7, 880, 810, 950, 11/100⟩, ⟨"LHR-KUL", 8, 860, 790, 930, 12/100⟩,
       ⟨"LHR-KUL", 9, 720, 650, 790, 14/100⟩, ⟨"LHR-KUL", 10, 680, 610, 750, 16/100⟩,
       ⟨"LHR-KUL", 11, 740, 670, 810, 13/100⟩, ⟨"LHR-KUL", 12, 820, 750, 890, 12/100⟩ ]),
    ("LHR-JFK",
     [ ⟨"LHR-JFK", 1, 420, 350, 490, 20/100⟩, ⟨"LHR-JFK", 2, 380, 320, 440, 22/100⟩,
       ⟨"LHR-JFK", 3, 450, 380, 520, 18/100⟩, ⟨"LHR-JFK", 4, 520, 450, 590, 16/100⟩,
       ⟨"LHR-JFK", 5, 580, 510, 650, 15/100⟩, ⟨"LHR-JFK", 6, 680, 610, 750, 12/100⟩,
       ⟨"LHR-JFK", 7, 750, 680, 820, 11/100⟩, ⟨"LHR-JFK", 8, 720, 650, 790, 12/100⟩,
       ⟨"LHR-JFK", 9, 520, 450, 590, 16/100⟩, ⟨"LHR-JFK", 10, 480, 410, 550, 17/100⟩,
       ⟨"LHR-JFK", 11, 450, 380, 520, 18/100⟩, ⟨"LHR-JFK", 12, 520, 450, 590, 16/100⟩ ]),
    ("DXB-LHR",
     [ ⟨"DXB-LHR", 1, 480, 420, 540, 18/100⟩, ⟨"DXB-LHR", 2, 450, 390, 510, 20/100⟩,
       ⟨"DXB-LHR", 3, 520, 460, 580, 16/100⟩, ⟨"DXB-LHR", 4, 580, 520, 640, 14/100⟩,
       ⟨"DXB-LHR", 5, 620, 560, 680, 13/100⟩, ⟨"DXB-LHR", 6, 680, 620, 740, 12/100⟩,
       ⟨"DXB-LHR", 7, 750, 690, 810, 11/100⟩, ⟨"DXB-LHR", 8, 720, 660, 780, 12/100⟩,
       ⟨"DXB-LHR", 9, 580, 520, 640, 14/100⟩, ⟨"DXB-LHR", 10, 540, 480, 600, 16/100⟩,
       ⟨"DXB-LHR", 11, 520, 460, 580, 16/100⟩, ⟨"DXB-LHR", 12, 580, 520, 640, 14/100⟩ ]),
    ("LAX-HND",
     [ ⟨"LAX-HND", 1, 850, 750, 950, 16/100⟩, ⟨"LAX-HND", 2, 820, 720, 920, 18/100⟩,
       ⟨"LAX-HND", 3, 900, 800, 1000, 15/100⟩, ⟨"LAX-HND", 4, 950, 850, 1050, 14/100⟩,
       ⟨"LAX-HND", 5, 1000, 900, 1100, 13/100⟩, ⟨"LAX-HND", 6, 1100, 1000, 1200, 12/100⟩,
       ⟨"LAX-HND", 7, 1200, 1100, 1300, 11/100⟩, ⟨"LAX-HND", 8, 1150, 1050, 1250, 12/100⟩,
       ⟨"LAX-HND", 9, 950, 850, 1050, 14/100⟩, ⟨"LAX-HND", 10, 900, 800, 1000, 15/100⟩,
       ⟨"LAX-HND", 11, 850, 750, 950, 16/100⟩, ⟨"LAX-HND", 12, 950, 850, 1050, 14/100⟩ ]),
    ("SFO-NRT",
     [ ⟨"SFO-NRT", 1, 780, 680, 880, 17/100⟩, ⟨"SFO-NRT", 2, 750, 650, 850, 19/100⟩,
       ⟨"SFO-NRT", 3, 820, 720, 920, 16/100⟩, ⟨"SFO-NRT", 4, 880, 780, 980, 15/100⟩,
       ⟨"SFO-NRT", 5, 920, 820, 1020, 14/100⟩, ⟨"SFO-NRT", 6, 1000, 900, 1100, 13/100⟩,
       ⟨"SFO-NRT", 7, 1100, 1000, 1200, 12/100⟩, ⟨"SFO-NRT", 8, 1050, 950, 1150, 13/100⟩,
       ⟨"SFO-NRT", 9, 880, 780, 980, 15/100⟩, ⟨"SFO-NRT", 10, 820, 720, 920, 16/100⟩,
       ⟨"SFO-NRT", 11, 780, 680, 880, 17/100⟩, ⟨"SFO-NRT", 12, 880, 780, 980, 15/100⟩ ]),
    ("JFK-CDG",
     [ ⟨"JFK-CDG", 1, 420, 360, 480, 19/100⟩, ⟨"JFK-CDG", 2, 390, 330, 450, 21/100⟩,
       ⟨"JFK-CDG", 3, 460, 400, 520, 17/100⟩, ⟨"JFK-CDG", 4, 520, 460, 580, 15/100⟩,
       ⟨"JFK-CDG", 5, 580, 520, 640, 14/100⟩, ⟨"JFK-CDG", 6, 680, 620, 740, 12/100⟩,
       ⟨"JFK-CDG", 7, 750, 690, 810, 11/100⟩, ⟨"JFK-CDG", 8, 720, 660, 780, 12/100⟩,
       ⟨"JFK-CDG", 9, 520, 460, 580, 15/100⟩, ⟨"JFK-CDG", 10, 480, 420, 540, 17/100⟩,
       ⟨"JFK-CDG", 11, 460, 400, 520, 17/100⟩, ⟨"JFK-CDG", 12, 520, 460, 580, 15/100⟩ ]) ]

/-- `HISTORICAL_DATA[route]` lookup (`undefined` becomes `none`). -/
def HISTORICAL_DATA (route : String) : Option (List RouteAnalysis) :=
  (HISTORICAL_DATA_pairs.find? (fun p => p.1 == route)).map (·.2)

/-- `getGenericHistoricalData`: synthesized seasonal profiles for unknown routes.
The `month` argument is present in the source signature but unused there. -/
def getGenericHistoricalData (_month : ℕ) : List RouteAnalysis :=
  let basePrice : ℚ := 400
  let seasonalMultipliers : List ℚ :=
    [8/10, 75/100, 9/10, 1, 11/10, 13/10, 14/10, 135/100, 1, 9/10, 85/100, 11/10]
  (seasonalMultipliers.enum).map (fun mi =>
    { route := "GENERIC"
      month := mi.1 + 1
      averagePrice := (jsRound (basePrice * mi.2) : ℚ)
      minPrice := (jsRound (basePrice * mi.2 * 8/10) : ℚ)
      maxPrice := (jsRound (basePrice * mi.2 * 12/10) : ℚ)
      priceVariation := 15/100 })

/-- The profile list `generatePrediction` works with:
`this.HISTORICAL_DATA[route] || this.getGenericHistoricalData(month)`. -/
def routeProfiles (route : String) (month : ℕ) : List RouteAnalysis :=
  (HISTORICAL_DATA route).getD (getGenericHistoricalData month)

/-- The month profile `generatePrediction` selects:
`historicalData.find(data => data.month === month) || historicalData[0]`. -/
def selectedMonthData (route : String) (month : ℕ) : RouteAnalysis :=
  ((routeProfiles route month).find? (fun d => d.month == month)).getD
    (routeProfiles route month).headI

/-- The price-position expression of `generatePrediction` (line 141 of the source):
`(currentPrice - monthData.minPrice) / (monthData.maxPrice - monthData.minPrice)`.
There is no guard: when `maxPrice = minPrice` the divisor is zero (in this model
the quotient is then 0; in JS it would be `Infinity` or `NaN` — in neither
semantics is it 0.5). -/
def pricePositionOf (currentPrice : ℚ) (monthData : RouteAnalysis) : ℚ :=
  (currentPrice - monthData.minPrice) / (monthData.maxPrice - monthData.minPrice)

/-- Environment of ambient effects read by the simple model: the wall clock,
today's calendar month, the month of "today minus 7·i days" (opaque calendar
arithmetic), the ISO timestamp string, and the `Math.random()` draws consumed by
`calculateProbabilities` (one), `calculateConfidence` (one) and
`isLowestPriceInRecentWeeks` (one per simulated week, indexed by the loop
counter `i`). -/
structure Env where
  nowMs : ℤ
  todayMonth : ℕ
  weekMonth : ℕ → ℕ
  timestamp : String
  probRand : ℚ
  confRand : ℚ
  weekRand : ℕ → ℚ

/-- `isLowestPriceInRecentWeeks(currentPrice, route, weeks)`: synthesize one
price per trailing week and test whether `currentPrice` is strictly below all
of them. Returns `false` when the route is unknown or today's month has no
profile. -/
def isLowestPriceInRecentWeeks (env : Env) (currentPrice : ℚ) (route : String)
    (weeks : ℕ) : Bool :=
  match HISTORICAL_DATA route with
  | none => false
  | some historicalData =>
    match historicalData.find? (fun d => d.month == env.todayMonth) with
    | none => false
    | some monthData =>
      let recentPrices : List ℚ :=
        ((List.range weeks).map (fun k => weeks - 1 - k)).map (fun i =>
          let weekMonthData :=
            (historicalData.find? (fun d => d.month == env.weekMonth i)).getD monthData
          let basePrice := weekMonthData.averagePrice
          let weeklyVariation := 85/100 + env.weekRand i * (3/10)
          let weekPrice : ℚ := (jsRound (basePrice * weeklyVariation) : ℚ)
          max (weekMonthData.minPrice * (8/10))
            (min (weekMonthData.maxPrice * (12/10)) weekPrice))
      recentPrices.all (fun price => currentPrice < price)

/-- `calculateProbabilities`: base probability from the price position, booking
window adjustment, random volatility jitter, clamp to [0.1, 0.9], complement,
round both to two decimals. Returns `(probabilityIncrease, probabilityDecrease)`. -/
def calculateProbabilities (env : Env) (_currentPrice : ℚ)
    (monthData : RouteAnalysis) (pricePosition : ℚ) (departureDate : JSDate) :
    ℚ × ℚ :=
  let base : ℚ :=
    if pricePosition < 3/10 then 75/100
    else if pricePosition > 7/10 then 25/100
    else 50/100
  let daysUntilDeparture : ℤ :=
    ⌈((departureDate.timeMs - env.nowMs : ℤ) : ℚ) / (1000 * 60 * 60 * 24)⌉
  let adjusted : ℚ :=
    if daysUntilDeparture < 14 then base + 2/10
    else if daysUntilDeparture > 90 then base + 1/10
    else base
  let volatilityFactor : ℚ := monthData.priceVariation * (env.probRand - 1/2) * (2/10)
  let withJitter : ℚ := adjusted + volatilityFactor
  let probabilityIncrease : ℚ := max (1/10) (min (9/10) withJitter)
  let probabilityDecrease : ℚ := 1 - probabilityIncrease
  (round2 probabilityIncrease, round2 probabilityDecrease)

/-- `calculateConfidence`: 0.8 base, volatility and extremity adjustments,
random jitter, then `max(60, min(95, round(c*100)))`. -/
def calculateConfidence (env : Env) (monthData : RouteAnalysis)
    (pricePosition : ℚ) : ℚ :=
  let c0 : ℚ := 8/10
  let c1 : ℚ := if monthData.priceVariation > 2/10 then c0 - 2/10 else c0
  let c2 : ℚ := if pricePosition < 2/10 ∨ pricePosition > 8/10 then c1 + 1/10 else c1
  let c3 : ℚ := c2 + (env.confRand - 1/2) * (1/10)
  max 60 (min 95 (jsRound (c3 * 100) : ℚ))

/-- `generateHistoricalContext`: human-readable summary string. -/
def generateHistoricalContext (monthData : RouteAnalysis) (currentPrice : ℚ)
    (month : ℕ) : String :=
  let monthNames : List String :=
    ["January", "February", "March", "April", "May", "June",
     "July", "August", "September", "October", "November", "December"]
  let monthName := monthNames.getD (month - 1) ""
  let head := monthName ++ " fares average £" ++ toString monthData.averagePrice
      ++ "–£" ++ toString monthData.maxPrice ++ "; "
  if currentPrice < monthData.averagePrice * (9/10) then
    head ++ "today is below typical range"
  else if currentPrice > monthData.averagePrice * (11/10) then
    head ++ "today is above typical range"
  else
    head ++ "today is within typical range"

/-- `generatePrediction(currentPrice, origin, destination, departureDate, currency)`. -/
def generatePrediction (env : Env) (currentPrice : ℚ)
    (origin destination : String) (departureDate : JSDate)
    (currency : String := "GBP") : PricePrediction :=
  let route := origin ++ "-" ++ destination
  let month := departureDate.month
  let monthData := selectedMonthData route month
  let pricePosition := pricePositionOf currentPrice monthData
  let probs := calculateProbabilities env currentPrice monthData pricePosition departureDate
  let confidence := calculateConfidence env monthData pricePosition
  let isLowestIn4Weeks := isLowestPriceInRecentWeeks env currentPrice route 4
  let recommendation : Rec :=
    if isLowestIn4Weeks then .BUY_NOW
    else if pricePosition < 6/10 then .BUY_NOW
    else if probs.1 ≥ 65/100 then .BUY_NOW
    else .WAIT
  { currentPrice := currentPrice
    currency := currency
    timestamp := env.timestamp
    probabilityIncrease := probs.1
    probabilityDecrease := probs.2
    confidence := confidence
    recommendation := recommendation
    historicalContext := generateHistoricalContext monthData currentPrice month
    priceRange :=
      { min := monthData.minPrice
        max := monthData.maxPrice
        average := monthData.averagePrice } }

end PricePredictionService

namespace EnhancedPredictionService

/-- One point of `priceHistory`. Of the `HistoricalPricePoint` interface the
enhanced prediction functions only ever read the `price` field; the other
(date/route/flag) fields are never consumed by the operations embedded here. -/
structure HistoricalPricePoint where
  price : ℚ
  deriving DecidableEq

instance : Inhabited HistoricalPricePoint := ⟨⟨0⟩⟩

/-- A month entry of `seasonalTrends`. -/
structure MonthTrend where
  averagePrice : ℚ
  minPrice : ℚ
  maxPrice : ℚ
  volatility : ℚ
  dataPoints : ℕ
  deriving DecidableEq

/-- An entry of `bookingWindowAnalysis` or `dayOfWeekTrends`. -/
structure WindowTrend where
  averagePrice : ℚ
  priceMultiplier : ℚ
  dataPoints : ℕ
  deriving DecidableEq

/-- `EnhancedRouteData`. The JS objects keyed by month / booking window / day
are modelled as association lists with distinct keys, in ascending key order
(JS objects with integer-like keys iterate in ascending numeric order, which is
what `Object.keys`/`Object.values` observe). -/
structure EnhancedRouteData where
  totalDataPoints : ℕ
  priceHistory : List HistoricalPricePoint
  seasonalTrends : List (ℕ × MonthTrend)
  bookingWindowAnalysis : List (ℕ × WindowTrend)
  dayOfWeekTrends : List (ℕ × WindowTrend)
  deriving DecidableEq

/-- `routeData.seasonalTrends[month]` (`undefined` becomes `none`). -/
def seasonalLookup (rd : EnhancedRouteData) (month : ℕ) : Option MonthTrend :=
  (rd.seasonalTrends.find? (fun p => p.1 == month)).map (·.2)

/-- `routeData.bookingWindowAnalysis[d]`. -/
def bookingLookup (rd : EnhancedRouteData) (d : ℕ) : Option WindowTrend :=
  (rd.bookingWindowAnalysis.find? (fun p => p.1 == d)).map (·.2)

/-- `routeData.dayOfWeekTrends[d]`. -/
def dayLookup (rd : EnhancedRouteData) (d : ℕ) : Option WindowTrend :=
  (rd.dayOfWeekTrends.find? (fun p => p.1 == d)).map (·.2)

/-- Mean volatility over `Object.values(routeData.seasonalTrends)` (computed
identically three times in the source). Division by zero (no seasonal data)
yields 0 here where JS would produce `NaN`; theorems about routes therefore
assume at least one seasonal entry. -/
def avgVolatility (rd : EnhancedRouteData) : ℚ :=
  (rd.seasonalTrends.map (fun p => p.2.volatility)).sum / rd.seasonalTrends.length

/-- `getClosestBookingWindow`: among the (ascending) keys pick the one closest
to `targetDays` (earlier key wins ties, as in the `reduce` of the source) and
return its entry. The source throws on an empty analysis (reduce of an empty
array); that case is `none` here. -/
def getClosestBookingWindow (bookingAnalysis : List (ℕ × WindowTrend))
    (targetDays : ℕ) : Option WindowTrend :=
  match bookingAnalysis.map (·.1) with
  | [] => none
  | w :: ws =>
    let best := ws.foldl (fun prev curr =>
      if ((curr : ℤ) - targetDays).natAbs < ((prev : ℤ) - targetDays).natAbs
      then curr else prev) w
    (bookingAnalysis.find? (fun p => p.1 == best)).map (·.2)

/-- `bookingWindowAnalysis[bookingDaysAhead] || getClosestBookingWindow(...)`. -/
def bookingDataFor (rd : EnhancedRouteData) (bookingDaysAhead : ℕ) : Option WindowTrend :=
  (bookingLookup rd bookingDaysAhead).orElse
    (fun _ => getClosestBookingWindow rd.bookingWindowAnalysis bookingDaysAhead)

/-- `calculateMarketTrendWeight`: normalized strength of the recent trend. -/
def calculateMarketTrendWeight (rd : EnhancedRouteData) : ℚ :=
  let recentData := rd.priceHistory.take 10
  if recentData.length < 2 then 3/10
  else
    let trend := recentData.headI.price - (recentData.getLastD default).price
    min (|trend| / 100) (8/10)

/-- `calculateTrendEffect`: recent trend normalized to [-0.2, 0.2]. -/
def calculateTrendEffect (rd : EnhancedRouteData) : ℚ :=
  let recentData := rd.priceHistory.take 10
  if recentData.length < 2 then 0
  else
    let trend := recentData.headI.price - (recentData.getLastD default).price
    max (-(2/10)) (min (2/10) (trend / 1000))

/-- The record returned by `calculatePredictionFactors`. -/
structure PredictionFactors where
  seasonalWeight : ℚ
  bookingWindowWeight : ℚ
  dayOfWeekWeight : ℚ
  volatilityWeight : ℚ
  marketTrendWeight : ℚ
  deriving DecidableEq

/-- `calculatePredictionFactors`. -/
def calculatePredictionFactors (rd : EnhancedRouteData) (_currentPrice : ℚ)
    (month dayOfWeek bookingDaysAhead : ℕ) : PredictionFactors :=
  { seasonalWeight :=
      match seasonalLookup rd month with
      | some d => min ((d.dataPoints : ℚ) / 10) 1
      | none => 3/10
    bookingWindowWeight :=
      match bookingDataFor rd bookingDaysAhead with
      | some d => min ((d.dataPoints : ℚ) / 5) 1
      | none => 3/10
    dayOfWeekWeight :=
      match dayLookup rd dayOfWeek with
      | some d => min ((d.dataPoints : ℚ) / 5) 1
      | none => 2/10
    volatilityWeight := max (1/10) (1 - avgVolatility rd)
    marketTrendWeight := calculateMarketTrendWeight rd }

/-- `calculateEnhancedProbabilities`: neutral 0.5 start, seasonal / booking
window / day-of-week / volatility / market-trend effects scaled by the factor
weights, clamp to [0.05, 0.95], complement, round both to two decimals. -/
def calculateEnhancedProbabilities (rd : EnhancedRouteData) (currentPrice : ℚ)
    (month dayOfWeek bookingDaysAhead : ℕ) (factors : PredictionFactors) :
    ℚ × ℚ :=
  let p0 : ℚ := 1/2
  let p1 : ℚ :=
    match seasonalLookup rd month with
    | some seasonalData =>
      let pricePosition :=
        (currentPrice - seasonalData.minPrice) /
          (seasonalData.maxPrice - seasonalData.minPrice)
      let seasonalEffect : ℚ :=
        if pricePosition < 3/10 then 2/10
        else if pricePosition > 7/10 then -(2/10) else 0
      p0 + seasonalEffect * factors.seasonalWeight
    | none => p0
  let p2 : ℚ :=
    match bookingDataFor rd bookingDaysAhead with
    | some _ =>
      let bookingEffect : ℚ :=
        if bookingDaysAhead < 14 then 25/100
        else if bookingDaysAhead > 60 then -(1/10) else 0
      p1 + bookingEffect * factors.bookingWindowWeight
    | none => p1
  let p3 : ℚ :=
    match dayLookup rd dayOfWeek with
    | some _ =>
      let dayEffect : ℚ :=
        if dayOfWeek == 0 || dayOfWeek == 6 then 1/10 else -(5/100)
      p2 + dayEffect * factors.dayOfWeekWeight
    | none => p2
  let volatilityEffect : ℚ := if avgVolatility rd > 2/10 then 1/10 else -(5/100)
  let p4 : ℚ := p3 + volatilityEffect * factors.volatilityWeight
  let p5 : ℚ := p4 + calculateTrendEffect rd * factors.marketTrendWeight
  let probabilityIncrease : ℚ := max (5/100) (min (95/100) p5)
  let probabilityDecrease : ℚ := 1 - probabilityIncrease
  (round2 probabilityIncrease, round2 probabilityDecrease)

/-- `calculateEnhancedConfidence`: 0.6 base plus data-quantity, coverage,
low-volatility and factor-reliability bonuses, then — exactly as in the
source — `Math.max(0.65, Math.min(0.98, Math.round(confidence * 100)))`.
Note the final line clamps the already-rescaled 0–100 value against the
fractional bounds 0.65 and 0.98. -/
def calculateEnhancedConfidence (rd : EnhancedRouteData)
    (factors : PredictionFactors) : ℚ :=
  let c0 : ℚ := 6/10
  let dataQuantityBonus : ℚ := min ((rd.totalDataPoints : ℚ) / 100) (25/100)
  let c1 := c0 + dataQuantityBonus
  let seasonalCoverage : ℚ := (rd.seasonalTrends.length : ℚ) / 12
  let c2 := c1 + seasonalCoverage * (15/100)
  let bookingCoverage : ℚ := (rd.bookingWindowAnalysis.length : ℚ) / 7
  let c3 := c2 + bookingCoverage * (1/10)
  let volatilityBonus : ℚ := max 0 ((3/10 - avgVolatility rd) * (1/2))
  let c4 := c3 + volatilityBonus
  let avgFactorWeight : ℚ :=
    (factors.seasonalWeight + factors.bookingWindowWeight +
      factors.dayOfWeekWeight + factors.volatilityWeight) / 4
  let c5 := c4 + avgFactorWeight * (15/100)
  max (65/100) (min (98/100) (jsRound (c5 * 100) : ℚ))

end EnhancedPredictionService

namespace ABTestingFramework

/-- Variant algorithm modes. -/
inductive Algorithm where
  | conservative
  | aggressive
  | balanced
  deriving DecidableEq, Repr

/-- `ABTestVariant`. -/
structure ABTestVariant where
  id : String
  name : String
  description : String
  confidenceThreshold : ℚ
  algorithm : Algorithm
  deriving DecidableEq

/-- The prediction object as seen by `applyVariantToPrediction`. In the source
its type is `any`: the function reads `confidence` and `probabilityIncrease`,
spreads everything else through unchanged, and writes `recommendation`,
`abTestVariant` and `abTestThreshold` (the last two are absent — `none` — on
predictions the engine itself produces). -/
structure ABPrediction where
  currentPrice : ℚ
  currency : String
  timestamp : String
  probabilityIncrease : ℚ
  probabilityDecrease : ℚ
  confidence : ℚ
  recommendation : Rec
  historicalContext : String
  priceRange : PricePredictionService.PriceRange
  abTestVariant : Option String
  abTestThreshold : Option ℚ
  deriving DecidableEq

/-- `applyVariantToPrediction(prediction, variant)`. -/
def applyVariantToPrediction (prediction : ABPrediction)
    (variant : ABTestVariant) : ABPrediction :=
  let recommendation : Rec :=
    match variant.algorithm with
    | .conservative =>
      if prediction.confidence ≥ variant.confidenceThreshold ∧
          prediction.probabilityIncrease ≥ 8/10 then .BUY_NOW else .WAIT
    | .aggressive =>
      if prediction.confidence ≥ variant.confidenceThreshold ∨
          prediction.probabilityIncrease ≥ 6/10 then .BUY_NOW else .WAIT
    | .balanced =>
      if prediction.confidence ≥ variant.confidenceThreshold ∧
          prediction.probabilityIncrease ≥ 75/100 then .BUY_NOW else .WAIT
  { prediction with
    recommendation := recommendation
    abTestVariant := some variant.id
    abTestThreshold := some variant.confidenceThreshold }

end ABTestingFramework

namespace HistoricalDataManager

/-- `RealHistoricalPrice`, reduced to the fields `performBacktesting` reads.
`date` is the observation timestamp in epoch milliseconds (the source stores an
ISO string and compares `new Date(d.date)` against a `Date`); `departureDate`
stays a string because it is only ever compared for equality. The unread
`currency`/`airline`/`source`/`timestamp` fields are omitted. -/
structure RealHistoricalPrice where
  route : String
  price : ℚ
  date : ℤ
  departureDate : String
  bookingDaysAhead : ℤ
  deriving DecidableEq

instance : Inhabited RealHistoricalPrice := ⟨⟨"", 0, 0, "", 0⟩⟩

/-- Backtest outcomes. -/
inductive Outcome where
  | CORRECT
  | INCORRECT
  deriving DecidableEq, Repr

/-- `BacktestResult`. -/
structure BacktestResult where
  route : String
  predictionDate : ℤ
  predictedPrice : ℚ
  actualPrice : ℚ
  error : ℚ
  percentageError : ℚ
  recommendation : Rec
  actualOutcome : Outcome
  daysAhead : ℤ
  deriving DecidableEq

/-- `findClosestFuturePrice(futurePoints, targetDepartureDate, targetBookingWindow)`:
first future point with the same departure date and a booking window within ±2
days of the target — or, failing that, simply the first future point
(`|| futurePoints[0]`), or `null`. -/
def findClosestFuturePrice (futurePoints : List RealHistoricalPrice)
    (targetDepartureDate : String) (targetBookingWindow : ℤ) :
    Option RealHistoricalPrice :=
  (futurePoints.find? (fun p =>
      p.departureDate == targetDepartureDate &&
        (p.bookingDaysAhead - targetBookingWindow).natAbs ≤ 2)).orElse
    (fun _ => futurePoints.head?)

/-- `makePredictionForBacktest(currentPoint, historicalData)`: average and
linear trend of (up to) the last 30 same-route prices; predict the price seven
days out and recommend BUY_NOW when the current price is below 90% of the
average. Returns `(predictedPrice, recommendation)`. -/
def makePredictionForBacktest (currentPoint : RealHistoricalPrice)
    (historicalData : List RealHistoricalPrice) : ℚ × Rec :=
  let filtered := historicalData.filter (fun d => d.route == currentPoint.route)
  let recentPrices := (filtered.drop (filtered.length - 30)).map (·.price)
  if recentPrices.length = 0 then
    (currentPoint.price, .WAIT)
  else
    let avgPrice := recentPrices.sum / recentPrices.length
    let trend : ℚ :=
      if recentPrices.length > 1 then
        ((recentPrices.getLastD 0) - recentPrices.headI) / recentPrices.length
      else 0
    let predictedPrice := currentPoint.price + trend * 7
    let recommendation : Rec :=
      if currentPoint.price < avgPrice * (9/10) then .BUY_NOW else .WAIT
    (predictedPrice, recommendation)

/-- One iteration of the inner loop of `performBacktesting` for index `i`:
prediction point `testData[i]`, future window `testData.slice(i+1, i+8)`,
prediction from `data.slice(0, i)`, comparison point from
`findClosestFuturePrice`, and the recorded `BacktestResult` (or `none` when no
future data exists). -/
def mkTrial (route : String) (data testData : List RealHistoricalPrice)
    (i : ℕ) : Option BacktestResult :=
  let predictionPoint := testData.getD i default
  let futurePoints := (testData.drop (i + 1)).take 7
  if futurePoints.isEmpty then none
  else
    let prediction := makePredictionForBacktest predictionPoint (data.take i)
    match findClosestFuturePrice futurePoints predictionPoint.departureDate
        (predictionPoint.bookingDaysAhead - 7) with
    | none => none
    | some actualFuturePrice =>
      let error := |prediction.1 - actualFuturePrice.price|
      let percentageError := error / actualFuturePrice.price * 100
      let priceIncreased := actualFuturePrice.price > predictionPoint.price
      let recommendationCorrect :=
        (prediction.2 = Rec.BUY_NOW ∧ priceIncreased) ∨
          (prediction.2 = Rec.WAIT ∧ ¬priceIncreased)
      some
        { route := route
          predictionDate := predictionPoint.date
          predictedPrice := prediction.1
          actualPrice := actualFuturePrice.price
          error := error
          percentageError := percentageError
          recommendation := prediction.2
          actualOutcome := if recommendationCorrect then .CORRECT else .INCORRECT
          daysAhead := predictionPoint.bookingDaysAhead }

/-- Route keys in first-appearance order (`groupDataByRoute` + `Object.entries`). -/
def routeKeys (historicalData : List RealHistoricalPrice) : List String :=
  historicalData.foldl (fun acc d => if d.route ∈ acc then acc else acc ++ [d.route]) []

/-- `performBacktesting(historicalData, testPeriodDays)`. `now` is the wall
clock in epoch milliseconds; the test window starts `testPeriodDays` days
before it. -/
def performBacktesting (now : ℤ) (historicalData : List RealHistoricalPrice)
    (testPeriodDays : ℤ := 90) : List BacktestResult :=
  let testStart : ℤ := now - testPeriodDays * 86400000
  (routeKeys historicalData).flatMap (fun route =>
    let data := historicalData.filter (fun d => d.route == route)
    let testData := data.filter (fun d => testStart ≤ d.date)
    (List.range (testData.length - 7)).filterMap (mkTrial route data testData))

end HistoricalDataManager

/-- JS `Math.round` over the reals (used where the source feeds `Math.sqrt`
results into rounding). -/
noncomputable def jsRoundR (x : ℝ) : ℤ := ⌊x + 1/2⌋

namespace HistoricalDataManager

instance : Inhabited BacktestResult :=
  ⟨⟨"", 0, 0, 0, 0, 0, .WAIT, .INCORRECT, 0⟩⟩

/-- `ValidationResult`. Numeric fields are reals because `rootMeanSquareError`
and the confidence interval involve `Math.sqrt`; `level` is fixed at 95. -/
structure ValidationResult where
  accuracy : ℝ
  meanAbsoluteError : ℝ
  rootMeanSquareError : ℝ
  ciLower : ℝ
  ciUpper : ℝ
  ciLevel : ℕ
  sampleSize : ℕ
  periodStart : ℤ
  periodEnd : ℤ

/-- `calculateValidationMetrics(backtestResults)`: throws on an empty input,
otherwise accuracy, MAE, RMSE and a 95% normal-approximation confidence
interval on accuracy, reported rounded (accuracy and the interval as
percentages with two decimals, MAE/RMSE to two decimals). -/
noncomputable def calculateValidationMetrics
    (backtestResults : List BacktestResult) : Except String ValidationResult :=
  if backtestResults.isEmpty then
    .error "No backtest results available for validation"
  else
    let errors : List ℝ := backtestResults.map (fun r => (r.error : ℝ))
    let correctRecommendations :=
      (backtestResults.filter (fun r => r.actualOutcome = .CORRECT)).length
    let accuracy : ℝ := (correctRecommendations : ℝ) / backtestResults.length
    let meanAbsoluteError : ℝ := errors.sum / errors.length
    let meanSquaredError : ℝ := (errors.map (fun e => e * e)).sum / errors.length
    let rootMeanSquareError : ℝ := Real.sqrt meanSquaredError
    let standardError : ℝ :=
      Real.sqrt ((accuracy * (1 - accuracy)) / backtestResults.length)
    let marginOfError : ℝ := 196/100 * standardError
    let ciLower : ℝ := max 0 (accuracy - marginOfError)
    let ciUpper : ℝ := min 1 (accuracy + marginOfError)
    .ok
      { accuracy := (jsRoundR (accuracy * 10000) : ℝ) / 100
        meanAbsoluteError := (jsRoundR (meanAbsoluteError * 100) : ℝ) / 100
        rootMeanSquareError := (jsRoundR (rootMeanSquareError * 100) : ℝ) / 100
        ciLower := (jsRoundR (ciLower * 10000) : ℝ) / 100
        ciUpper := (jsRoundR (ciUpper * 10000) : ℝ) / 100
        ciLevel := 95
        sampleSize := backtestResults.length
        periodStart := (backtestResults.headI).predictionDate
        periodEnd := (backtestResults.getLastD default).predictionDate }

end HistoricalDataManager

namespace FlightPriceAggregator

open PricePredictionService

/-- One flight offer as consumed by the aggregator: its price and the optional
recency weight (`f.recencyWeight || 1.0`). -/
structure AviaFlight where
  price : ℚ
  recencyWeight : Option ℚ
  deriving DecidableEq

/-- The Aviasales data the aggregator may receive: the weighted and simple
averages from `getPriceStatistics` plus the flight list from `searchFlights`.
`none` models the provider failing or returning no data. -/
structure AviasalesData where
  weightedAverage : ℚ
  average : ℚ
  flights : List AviaFlight
  deriving DecidableEq

/-- `FlightPriceData` (the non-null result of `getAverageFlightPrices`). -/
structure FlightPriceData where
  averagePrice : ℚ
  minPrice : ℚ
  maxPrice : ℚ
  priceCount : ℕ
  sources : List String
  confidence : ℚ

/-- The price pool and source tags accumulated by `getAverageFlightPrices`
before statistics are computed: Aviasales weighted average, simple average and
up to three recent flights (recency weight > 1.5) when the provider answered,
then always the synthetic min/average/max of the prediction generated for the
pool's mean so far (or 400 when the pool is empty). -/
def pricePool (env : Env) (aviasales : Option AviasalesData)
    (origin destination : String) (departureDate : JSDate) (currency : String) :
    List ℚ × List String :=
  let aviaPrices : List ℚ :=
    match aviasales with
    | some s =>
      let recentFlights :=
        (s.flights.filter (fun f => f.recencyWeight.getD 1 > 15/10)).take 3
      [s.weightedAverage, s.average] ++ recentFlights.map (·.price)
    | none => []
  let sources : List String :=
    (match aviasales with
     | some _ => ["Aviasales (Weighted)"]
     | none => []) ++ ["Synthetic Data (FlightPriceIQ)"]
  let predictionInput : ℚ :=
    if aviaPrices.length > 0 then aviaPrices.sum / aviaPrices.length else 400
  let prediction :=
    generatePrediction env predictionInput origin destination departureDate currency
  (aviaPrices ++
      [prediction.priceRange.min, prediction.priceRange.average,
        prediction.priceRange.max],
    sources)

/-- The confidence heuristic of `getAverageFlightPrices` (source lines
100–116): base 75, both-sources bonus, sample-size bonus, coefficient-of-
variation adjustment, clamp to [50, 95]. The `Math.sqrt` of the variance is
`Real.sqrt`, hence `noncomputable`. Note the +10 both-sources bonus tests
`sources.includes('Aviasales')` although the tag actually pushed is
`'Aviasales (Weighted)'`. The `mean` entering the coefficient of variation is
the already-rounded `averagePrice`, as in the source. -/
noncomputable def aggregatorConfidence (allPrices : List ℚ)
    (sources : List String) : ℚ :=
  let c0 : ℚ := 75
  let c1 : ℚ :=
    if sources.contains "Aviasales" ∧
        sources.contains "Synthetic Data (FlightPriceIQ)" then c0 + 10 else c0
  let c2 : ℚ := if allPrices.length ≥ 10 then c1 + 5 else c1
  let mean : ℚ := (jsRound (allPrices.sum / allPrices.length) : ℚ)
  let variance : ℚ :=
    (allPrices.map (fun price => (price - mean) ^ 2)).sum / allPrices.length
  let stdDev : ℝ := Real.sqrt (variance : ℝ)
  let coefficientOfVariation : ℝ := stdDev / (mean : ℝ)
  let c3 : ℚ :=
    if coefficientOfVariation < 15/100 then c2 + 10
    else if coefficientOfVariation > 3/10 then c2 - 10 else c2
  max 50 (min 95 c3)

/-- `getAverageFlightPrices`: pool statistics plus the confidence heuristic. -/
noncomputable def getAverageFlightPrices (env : Env)
    (aviasales : Option AviasalesData) (origin destination : String)
    (departureDate : JSDate) (currency : String) : Option FlightPriceData :=
  let pool := pricePool env aviasales origin destination departureDate currency
  let allPrices := pool.1
  let sources := pool.2
  if allPrices.length = 0 then none
  else
    let averagePrice : ℚ := (jsRound (allPrices.sum / allPrices.length) : ℚ)
    let minPrice : ℚ := allPrices.foldr min allPrices.headI
    let maxPrice : ℚ := allPrices.foldr max allPrices.headI
    some
      { averagePrice := averagePrice
        minPrice := minPrice
        maxPrice := maxPrice
        priceCount := allPrices.length
        sources := sources
        confidence := aggregatorConfidence allPrices sources }

end FlightPriceAggregator

/-! Concrete fixtures used by witnesses and counterexamples. -/

namespace Fixtures

open PricePredictionService EnhancedPredictionService HistoricalDataManager
open FlightPriceAggregator ABTestingFramework

/-- A concrete ambient environment: clock at epoch, July, all random draws 1/2. -/
def env0 : Env :=
  { nowMs := 0, todayMonth := 7, weekMonth := fun _ => 7, timestamp := ""
    probRand := 1/2, confRand := 1/2, weekRand := fun _ => 1/2 }

/-- The environment of the C2 counterexample: the probability jitter draw is
2/3 (a legal `Math.random()` value), all else as in `env0`. -/
def envC2 : Env := { env0 with probRand := 2/3 }

/-- A departure date in July, 30 days after the epoch clock of `env0`. -/
def dep7 : JSDate := ⟨7, 30 * 86400000⟩

/-- A departure date in May, 30 days out. -/
def dep5 : JSDate := ⟨5, 30 * 86400000⟩

/-- Enhanced route data with one seasonal month (volatility 0.1, 10 points),
one booking window and 30 total points. -/
def rd0 : EnhancedRouteData :=
  { totalDataPoints := 30
    priceHistory := []
    seasonalTrends := [(6, ⟨500, 400, 600, 1/10, 10⟩)]
    bookingWindowAnalysis := [(30, ⟨500, 1, 5⟩)]
    dayOfWeekTrends := [] }

/-- The factors the enhanced service derives for `rd0`. -/
def factors0 : PredictionFactors := calculatePredictionFactors rd0 500 6 1 30

/-- Aviasales answered with weighted and simple averages of 750 and no
individual flights. -/
def avia0 : AviasalesData := { weightedAverage := 750, average := 750, flights := [] }

/-- Backtest data for one route: a prediction point with departure date
"2025-01-01" followed by seven observations, none of which shares that
departure date. -/
def backtestPoint : RealHistoricalPrice :=
  ⟨"R", 500, 0, "2025-01-01", 30⟩

/-- The seven future observations following `backtestPoint`. -/
def backtestFuture : List RealHistoricalPrice :=
  [⟨"R", 999, 1, "2025-02-01", 30⟩,
   ⟨"R", 601, 2, "2025-02-02", 30⟩,
   ⟨"R", 602, 3, "2025-02-03", 30⟩,
   ⟨"R", 603, 4, "2025-02-04", 30⟩,
   ⟨"R", 604, 5, "2025-02-05", 30⟩,
   ⟨"R", 605, 6, "2025-02-06", 30⟩,
   ⟨"R", 606, 7, "2025-02-07", 30⟩]

/-- The full backtest data set. -/
def backtestData : List RealHistoricalPrice := backtestPoint :: backtestFuture

/-- The trial `performBacktesting` records on `backtestData`: the comparison
price 999 comes from the fallback first future point, none of the future
points matching the departure-date/booking-window rule. -/
def fallbackTrial : BacktestResult :=
  ⟨"R", 0, 500, 999, 499, 49900/999, .WAIT, .INCORRECT, 30⟩

/-- A backtest result with a perfect prediction (error 0, outcome CORRECT). -/
def perfectTrial : BacktestResult :=
  ⟨"R", 5, 500, 500, 0, 0, .BUY_NOW, .CORRECT, 30⟩

/-- The conservative A/B variant as hardcoded in `VARIANTS`. -/
def conservativeVariant : ABTestVariant :=
  { id := "conservative", name := "Conservative"
    description := "High confidence threshold (85%) for BUY_NOW recommendations"
    confidenceThreshold := 85, algorithm := .conservative }

/-- A prediction record as the engine emits it (no A/B fields set). -/
def predForAB : ABPrediction :=
  { currentPrice := 500, currency := "GBP", timestamp := ""
    probabilityIncrease := 85/100, probabilityDecrease := 15/100
    confidence := 90, recommendation := .WAIT, historicalContext := ""
    priceRange := ⟨400, 600, 500⟩
    abTestVariant := none, abTestThreshold := none }

end Fixtures

/-- The recommendation rule of the claim for `applyVariantToPrediction`, as the
specification words it: conservative — confidence at or above the threshold AND
probabilityIncrease ≥ 0.8; aggressive — threshold reached OR
probabilityIncrease ≥ 0.6; balanced — threshold reached AND
probabilityIncrease ≥ 0.75. Stated over the input prediction, to be compared
with the recommendation the implementation writes. -/
def specVariantRule (prediction : ABTestingFramework.ABPrediction)
    (variant : ABTestingFramework.ABTestVariant) : Prop :=
  match variant.algorithm with
  | .conservative =>
    prediction.confidence ≥ variant.confidenceThreshold ∧
      prediction.probabilityIncrease ≥ 8/10
  | .aggressive =>
    prediction.confidence ≥ variant.confidenceThreshold ∨
      prediction.probabilityIncrease ≥ 6/10
  | .balanced =>
    prediction.confidence ≥ variant.confidenceThreshold ∧
      prediction.probabilityIncrease ≥ 75/100

instance (p : ABTestingFramework.ABPrediction) (v : ABTestingFramework.ABTestVariant) :
    Decidable (specVariantRule p v) := by
  unfold specVariantRule
  cases v.algorithm <;> infer_instance

/-! Helper lemmas about JS rounding. -/

/-- `Math.round` is monotone. -/
theorem jsRound_mono {x y : ℚ} (h : x ≤ y) : jsRound x ≤ jsRound y :=
  Int.floor_mono (by linarith)

/-- `Math.round` of an integer is that integer. -/
theorem jsRound_intCast (n : ℤ) : jsRound (n : ℚ) = n := by
  unfold jsRound
  rw [add_comm, Int.floor_add_int]
  norm_num

/-- An integer lower bound survives `Math.round`. -/
theorem le_jsRound {n : ℤ} {x : ℚ} (h : (n : ℚ) ≤ x) : n ≤ jsRound x := by
  have := jsRound_mono h
  rwa [jsRound_intCast] at this

/-- An integer upper bound survives `Math.round`. -/
theorem jsRound_le {n : ℤ} {x : ℚ} (h : x ≤ (n : ℚ)) : jsRound x ≤ n := by
  have := jsRound_mono h
  rwa [jsRound_intCast] at this

/-- Rounding `x` and `100 - x` yields a total of 100, or of 101 exactly when
`x + 1/2` is an integer (the half-way rounding case). -/
theorem jsRound_half_sum (x : ℚ) :
    jsRound x + jsRound (100 - x) = 100 ∨ jsRound x + jsRound (100 - x) = 101 := by
  set t : ℚ := x + 1/2 with ht
  have h1 : jsRound x = ⌊t⌋ := rfl
  have h2 : jsRound (100 - x) = -⌈t⌉ + 101 := by
    unfold jsRound
    have he : (100 : ℚ) - x + 1/2 = -t + ((101 : ℤ) : ℚ) := by
      rw [ht]; push_cast; ring
    rw [he, Int.floor_add_int, Int.floor_neg]
  by_cases hc : (⌊t⌋ : ℚ) = t
  · right
    have hceil : ⌈t⌉ = ⌊t⌋ := by
      conv_lhs => rw [← hc]
      rw [Int.ceil_intCast]
    omega
  · left
    have hlt : ⌊t⌋ < ⌈t⌉ := Int.lt_ceil.mpr (lt_of_le_of_ne (Int.floor_le t) hc)
    have hle : ⌈t⌉ ≤ ⌊t⌋ + 1 := by
      apply Int.ceil_le.mpr
      push_cast
      exact (Int.lt_floor_add_one t).le
    omega

/-- Rounding a probability and its complement to two decimals sums to exactly
1, or to 1.01 in the half-way rounding case. -/
theorem round2_sum_complement (p : ℚ) :
    round2 p + round2 (1 - p) = 1 ∨ round2 p + round2 (1 - p) = 101/100 := by
  have he : (1 - p) * 100 = 100 - p * 100 := by ring
  unfold round2
  rw [he, div_add_div_same, ← Int.cast_add]
  rcases jsRound_half_sum (p * 100) with h | h <;> rw [h]
  · left; norm_num
  · right; norm_num

/-- Two-decimal rounding keeps a value between bounds that are themselves
multiples of 1/100. -/
theorem round2_bounds {L H : ℤ} {p : ℚ} (h1 : (L : ℚ)/100 ≤ p)
    (h2 : p ≤ (H : ℚ)/100) : (L : ℚ)/100 ≤ round2 p ∧ round2 p ≤ (H : ℚ)/100 := by
  have hL : (L : ℚ) ≤ p * 100 := by
    rw [div_le_iff₀ (by norm_num : (0:ℚ) < 100)] at h1
    exact h1
  have hH : p * 100 ≤ (H : ℚ) := by
    rw [le_div_iff₀ (by norm_num : (0:ℚ) < 100)] at h2
    exact h2
  unfold round2
  constructor
  · exact (div_le_div_iff_of_pos_right (by norm_num : (0:ℚ) < 100)).mpr
      (Int.cast_le.mpr (le_jsRound hL))
  · exact (div_le_div_iff_of_pos_right (by norm_num : (0:ℚ) < 100)).mpr
      (Int.cast_le.mpr (jsRound_le hH))

/-! Helper lemmas about the seasonal profile tables. -/

namespace PricePredictionService

/-- Every entry of the hardcoded table has `minPrice < maxPrice` and
`minPrice ≤ averagePrice ≤ maxPrice`. -/
theorem table_profiles_ordered :
    ∀ pr ∈ HISTORICAL_DATA_pairs, ∀ m ∈ pr.2,
      m.minPrice < m.maxPrice ∧ m.minPrice ≤ m.averagePrice ∧
        m.averagePrice ≤ m.maxPrice := by decide

/-- The synthesized generic table, written out: the rounded prices per month. -/
theorem generic_eq (month : ℕ) : getGenericHistoricalData month =
    [⟨"GENERIC", 1, 320, 256, 384, 15/100⟩, ⟨"GENERIC", 2, 300, 240, 360, 15/100⟩,
     ⟨"GENERIC", 3, 360, 288, 432, 15/100⟩, ⟨"GENERIC", 4, 400, 320, 480, 15/100⟩,
     ⟨"GENERIC", 5, 440, 352, 528, 15/100⟩, ⟨"GENERIC", 6, 520, 416, 624, 15/100⟩,
     ⟨"GENERIC", 7, 560, 448, 672, 15/100⟩, ⟨"GENERIC", 8, 540, 432, 648, 15/100⟩,
     ⟨"GENERIC", 9, 400, 320, 480, 15/100⟩, ⟨"GENERIC", 10, 360, 288, 432, 15/100⟩,
     ⟨"GENERIC", 11, 340, 272, 408, 15/100⟩, ⟨"GENERIC", 12, 440, 352, 528, 15/100⟩] := by
  norm_num [getGenericHistoricalData, List.enum, List.enumFrom, jsRound]

/-- Every generic profile likewise. -/
theorem generic_profiles_ordered (month : ℕ) :
    ∀ m ∈ getGenericHistoricalData month,
      m.minPrice < m.maxPrice ∧ m.minPrice ≤ m.averagePrice ∧
        m.averagePrice ≤ m.maxPrice := by
  rw [generic_eq]
  intro m hm
  fin_cases hm <;> norm_num

/-- Every route list of the table is non-empty. -/
theorem table_lists_nonempty : ∀ pr ∈ HISTORICAL_DATA_pairs, pr.2 ≠ [] := by decide

/-- The head of a non-empty list is a member. -/
theorem headI_mem_self {α : Type} [Inhabited α] {l : List α} (h : l ≠ []) :
    l.headI ∈ l := by
  cases l with
  | nil => exact absurd rfl h
  | cons a t => exact List.mem_cons_self a t

/-- The profile list consulted by `generatePrediction` is never empty. -/
theorem routeProfiles_nonempty (route : String) (month : ℕ) :
    routeProfiles route month ≠ [] := by
  unfold routeProfiles HISTORICAL_DATA
  cases hf : HISTORICAL_DATA_pairs.find? (fun p => p.1 == route) with
  | none =>
    simp only [Option.map_none', Option.getD_none]
    rw [generic_eq]
    simp
  | some pr =>
    simp only [Option.map_some', Option.getD_some]
    exact table_lists_nonempty pr (List.mem_of_find?_eq_some hf)

/-- Every member of the consulted profile list is ordered. -/
theorem routeProfiles_ordered (route : String) (month : ℕ) :
    ∀ m ∈ routeProfiles route month,
      m.minPrice < m.maxPrice ∧ m.minPrice ≤ m.averagePrice ∧
        m.averagePrice ≤ m.maxPrice := by
  unfold routeProfiles HISTORICAL_DATA
  cases hf : HISTORICAL_DATA_pairs.find? (fun p => p.1 == route) with
  | none =>
    simp only [Option.map_none', Option.getD_none]
    exact generic_profiles_ordered month
  | some pr =>
    simp only [Option.map_some', Option.getD_some]
    exact table_profiles_ordered pr (List.mem_of_find?_eq_some hf)

/-- The month profile `generatePrediction` selects is a member of the
consulted list. -/
theorem selectedMonthData_mem (route : String) (month : ℕ) :
    selectedMonthData route month ∈ routeProfiles route month := by
  unfold selectedMonthData
  cases hf : (routeProfiles route month).find? (fun d => d.month == month) with
  | none =>
    simp only [Option.getD_none]
    exact headI_mem_self (routeProfiles_nonempty route month)
  | some m =>
    simp only [Option.getD_some]
    exact List.mem_of_find?_eq_some hf

end PricePredictionService

/-! Claim theorems. -/

open PricePredictionService EnhancedPredictionService HistoricalDataManager
open FlightPriceAggregator ABTestingFramework Fixtures

/-- Shared: rounding the clamp of `x` to `[lo, hi]` and its complement keeps
both within `[lo, hi]` and sums to 1 or 1.01, provided `lo` and `hi` are
hundredths summing to 1. -/
theorem round_clamp_pair (L H : ℤ) (lo hi x : ℚ) (hLlo : lo = (L : ℚ)/100)
    (hHhi : hi = (H : ℚ)/100) (hlohi : lo ≤ hi) (hsum : lo + hi = 1) :
    (lo ≤ round2 (max lo (min hi x)) ∧ round2 (max lo (min hi x)) ≤ hi) ∧
    (lo ≤ round2 (1 - max lo (min hi x)) ∧ round2 (1 - max lo (min hi x)) ≤ hi) ∧
    (round2 (max lo (min hi x)) + round2 (1 - max lo (min hi x)) = 1 ∨
      round2 (max lo (min hi x)) + round2 (1 - max lo (min hi x)) = 101/100) := by
  have hp1 : lo ≤ max lo (min hi x) := le_max_left _ _
  have hp2 : max lo (min hi x) ≤ hi := max_le hlohi (min_le_left _ _)
  have hq1 : lo ≤ 1 - max lo (min hi x) := by linarith
  have hq2 : 1 - max lo (min hi x) ≤ hi := by linarith
  subst hLlo hHhi
  exact ⟨round2_bounds hp1 hp2, round2_bounds hq1 hq2, round2_sum_complement _⟩

/-- C2 (amended): the pre-rounding probabilities always sum to exactly 1, and
after the per-field two-decimal rounding both probabilities still lie within
the declared clamp bounds — [0.1, 0.9] for the simple model, [0.05, 0.95] for
the enhanced model — but the rounded pair sums to 1 or, in the half-way
rounding case, to 1.01. -/
theorem C2_probability_bounds_and_sum :
    (∀ (env : Env) (cp : ℚ) (m : RouteAnalysis) (pos : ℚ) (dep : JSDate),
      (1/10 ≤ (calculateProbabilities env cp m pos dep).1 ∧
        (calculateProbabilities env cp m pos dep).1 ≤ 9/10) ∧
      (1/10 ≤ (calculateProbabilities env cp m pos dep).2 ∧
        (calculateProbabilities env cp m pos dep).2 ≤ 9/10) ∧
      ((calculateProbabilities env cp m pos dep).1 +
          (calculateProbabilities env cp m pos dep).2 = 1 ∨
        (calculateProbabilities env cp m pos dep).1 +
          (calculateProbabilities env cp m pos dep).2 = 101/100)) ∧
    (∀ (rd : EnhancedRouteData) (cp : ℚ) (month day bda : ℕ)
        (f : PredictionFactors), rd.seasonalTrends ≠ [] →
      (5/100 ≤ (calculateEnhancedProbabilities rd cp month day bda f).1 ∧
        (calculateEnhancedProbabilities rd cp month day bda f).1 ≤ 95/100) ∧
      (5/100 ≤ (calculateEnhancedProbabilities rd cp month day bda f).2 ∧
        (calculateEnhancedProbabilities rd cp month day bda f).2 ≤ 95/100) ∧
      ((calculateEnhancedProbabilities rd cp month day bda f).1 +
          (calculateEnhancedProbabilities rd cp month day bda f).2 = 1 ∨
        (calculateEnhancedProbabilities rd cp month day bda f).1 +
          (calculateEnhancedProbabilities rd cp month day bda f).2 = 101/100)) := by
  constructor
  · intro env cp m pos dep
    dsimp only [calculateProbabilities]
    exact round_clamp_pair 10 90 (1/10) (9/10) _ (by norm_num) (by norm_num)
      (by norm_num) (by norm_num)
  · intro rd cp month day bda f _h
    dsimp only [calculateEnhancedProbabilities]
    exact round_clamp_pair 5 95 (5/100) (95/100) _ (by norm_num) (by norm_num)
      (by norm_num) (by norm_num)

/-- C2 (counterexample): with the legal jitter draw 2/3, price 580 on route
LHR-JFK in May (profile min 510, max 650, variation 0.15) and a departure 30
days out, the clamped probability is 0.505, which rounds to 0.51 while its
complement 0.495 rounds to 0.50 — the returned probabilities sum to 1.01, not
exactly 1. -/
theorem C2_rounded_sum_not_one :
    ((0 : ℚ) ≤ 2/3 ∧ (2/3 : ℚ) < 1) ∧
    calculateProbabilities envC2 580 (selectedMonthData "LHR-JFK" 5)
      (pricePositionOf 580 (selectedMonthData "LHR-JFK" 5)) dep5 =
        (51/100, 1/2) ∧
    (51/100 : ℚ) + 1/2 ≠ 1 := by
  refine ⟨by norm_num, ?_, by norm_num⟩
  have hsel : selectedMonthData "LHR-JFK" 5 = ⟨"LHR-JFK", 5, 580, 510, 650, 15/100⟩ := rfl
  simp only [calculateProbabilities, hsel, pricePositionOf, envC2, env0, dep5]
  norm_num [round2, jsRound]

/-- C2 (witness): the amended bounds instantiated on concrete enhanced route
data with non-empty seasonal trends. -/
theorem C2_probability_bounds_and_sum_witness :
    (5/100 ≤ (calculateEnhancedProbabilities rd0 500 6 1 30 factors0).1 ∧
      (calculateEnhancedProbabilities rd0 500 6 1 30 factors0).1 ≤ 95/100) ∧
    (5/100 ≤ (calculateEnhancedProbabilities rd0 500 6 1 30 factors0).2 ∧
      (calculateEnhancedProbabilities rd0 500 6 1 30 factors0).2 ≤ 95/100) ∧
    ((calculateEnhancedProbabilities rd0 500 6 1 30 factors0).1 +
        (calculateEnhancedProbabilities rd0 500 6 1 30 factors0).2 = 1 ∨
      (calculateEnhancedProbabilities rd0 500 6 1 30 factors0).1 +
        (calculateEnhancedProbabilities rd0 500 6 1 30 factors0).2 = 101/100) :=
  C2_probability_bounds_and_sum.2 rd0 500 6 1 30 factors0 (by simp [rd0])

/-- C7: every seasonal profile the engine can select — each entry of the
hardcoded `HISTORICAL_DATA` table and each month of the synthesized generic
table — satisfies `minPrice ≤ averagePrice ≤ maxPrice`; consequently the
`priceRange` of every prediction is ordered: min ≤ average ≤ max. -/
theorem C7_price_range_ordered :
    (∀ (route : String) (l : List RouteAnalysis), HISTORICAL_DATA route = some l →
      ∀ m ∈ l, m.minPrice ≤ m.averagePrice ∧ m.averagePrice ≤ m.maxPrice) ∧
    (∀ (month : ℕ), ∀ m ∈ getGenericHistoricalData month,
      m.minPrice ≤ m.averagePrice ∧ m.averagePrice ≤ m.maxPrice) ∧
    (∀ (env : Env) (cp : ℚ) (origin destination : String) (dep : JSDate)
        (currency : String),
      (generatePrediction env cp origin destination dep currency).priceRange.min ≤
          (generatePrediction env cp origin destination dep currency).priceRange.average ∧
        (generatePrediction env cp origin destination dep currency).priceRange.average ≤
          (generatePrediction env cp origin destination dep currency).priceRange.max) := by
  refine ⟨?_, ?_, ?_⟩
  · intro route l h m hm
    unfold HISTORICAL_DATA at h
    rw [Option.map_eq_some'] at h
    obtain ⟨pr, hfind, hsnd⟩ := h
    have := table_profiles_ordered pr (List.mem_of_find?_eq_some hfind) m (hsnd ▸ hm)
    exact ⟨this.2.1, this.2.2⟩
  · intro month m hm
    have := generic_profiles_ordered month m hm
    exact ⟨this.2.1, this.2.2⟩
  · intro env cp origin destination dep currency
    have h := routeProfiles_ordered (origin ++ "-" ++ destination) dep.month
      (selectedMonthData (origin ++ "-" ++ destination) dep.month)
      (selectedMonthData_mem _ _)
    exact ⟨h.2.1, h.2.2⟩

/-- C7 (witness): the generic January profile (min 256, average 320, max 384)
is ordered, via the theorem applied to the generic table. -/
theorem C7_price_range_ordered_witness :
    (⟨"GENERIC", 1, 320, 256, 384, 15/100⟩ : RouteAnalysis).minPrice ≤
        (⟨"GENERIC", 1, 320, 256, 384, 15/100⟩ : RouteAnalysis).averagePrice ∧
      (⟨"GENERIC", 1, 320, 256, 384, 15/100⟩ : RouteAnalysis).averagePrice ≤
        (⟨"GENERIC", 1, 320, 256, 384, 15/100⟩ : RouteAnalysis).maxPrice :=
  C7_price_range_ordered.2.1 1 ⟨"GENERIC", 1, 320, 256, 384, 15/100⟩
    (by rw [generic_eq]; simp)

/-- C8 (amended): the price-position division of `generatePrediction` is the
raw, unguarded quotient — at a zero-width profile it is not special-cased to
0.5 — but no profile the engine can select has `maxPrice = minPrice`: every
selectable month profile satisfies `minPrice < maxPrice`, so the zero-width
divisor is unreachable. -/
theorem C8_no_zero_width_profile (route : String) (month : ℕ) :
    (selectedMonthData route month).minPrice < (selectedMonthData route month).maxPrice :=
  (routeProfiles_ordered route month _ (selectedMonthData_mem route month)).1

/-- C8 (counterexample): on a hypothetical zero-width profile
(min = max = 100) at price 150, the price-position expression evaluates to the
unguarded quotient `50/0` — 0 in this model, `Infinity` in JS — and in neither
semantics to the 0.5 the claim requires. -/
theorem C8_price_position_unguarded :
    pricePositionOf 150 ⟨"X", 1, 100, 100, 100, 1/10⟩ = 0 ∧ (0 : ℚ) ≠ 1/2 := by
  constructor
  · norm_num [pricePositionOf]
  · norm_num

/-- Two-decimal rounding is monotone. -/
theorem round2_mono {x y : ℚ} (h : x ≤ y) : round2 x ≤ round2 y := by
  unfold round2
  exact (div_le_div_iff_of_pos_right (by norm_num : (0:ℚ) < 100)).mpr
    (Int.cast_le.mpr (jsRound_mono
      (mul_le_mul_of_nonneg_right h (by norm_num : (0:ℚ) ≤ 100))))

/-- C9 (amended): `applyVariantToPrediction` writes the recommendation
according to the variant rule — conservative: confidence ≥ threshold AND
probabilityIncrease ≥ 0.8; aggressive: confidence ≥ threshold OR
probabilityIncrease ≥ 0.6; balanced: confidence ≥ threshold AND
probabilityIncrease ≥ 0.75 — leaves every field of the input prediction other
than `recommendation` unchanged, and additionally sets the two variant-audit
fields `abTestVariant` and `abTestThreshold` to the variant's id and
threshold. -/
theorem C9_apply_variant_spec (p : ABPrediction) (v : ABTestVariant) :
    ((applyVariantToPrediction p v).recommendation = .BUY_NOW ↔ specVariantRule p v) ∧
    (applyVariantToPrediction p v).currentPrice = p.currentPrice ∧
    (applyVariantToPrediction p v).currency = p.currency ∧
    (applyVariantToPrediction p v).timestamp = p.timestamp ∧
    (applyVariantToPrediction p v).probabilityIncrease = p.probabilityIncrease ∧
    (applyVariantToPrediction p v).probabilityDecrease = p.probabilityDecrease ∧
    (applyVariantToPrediction p v).confidence = p.confidence ∧
    (applyVariantToPrediction p v).historicalContext = p.historicalContext ∧
    (applyVariantToPrediction p v).priceRange = p.priceRange ∧
    (applyVariantToPrediction p v).abTestVariant = some v.id ∧
    (applyVariantToPrediction p v).abTestThreshold = some v.confidenceThreshold := by
  refine ⟨?_, rfl, rfl, rfl, rfl, rfl, rfl, rfl, rfl, rfl, rfl⟩
  cases hv : v.algorithm <;>
    simp only [applyVariantToPrediction, specVariantRule, hv] <;>
    split_ifs with h <;> simp [h]

/-- C9 (counterexample): the function does not leave every field other than
`recommendation` unchanged — on a prediction with no A/B annotations it writes
the `abTestVariant` field. -/
theorem C9_apply_variant_adds_fields :
    (applyVariantToPrediction predForAB conservativeVariant).abTestVariant ≠
      predForAB.abTestVariant := by
  decide

/-- C10: with the route profile, date and random draws held fixed, the
returned probabilityIncrease of the simple model is non-increasing in the
current price. -/
theorem C10_probability_monotone (env : Env) (m : RouteAnalysis) (dep : JSDate)
    (p1 p2 : ℚ) (hm : m.minPrice < m.maxPrice) (h12 : p1 < p2) :
    (calculateProbabilities env p2 m (pricePositionOf p2 m) dep).1 ≤
      (calculateProbabilities env p1 m (pricePositionOf p1 m) dep).1 := by
  have hpos : pricePositionOf p1 m ≤ pricePositionOf p2 m := by
    unfold pricePositionOf
    exact (div_le_div_iff_of_pos_right (by linarith)).mpr (by linarith)
  dsimp only [calculateProbabilities]
  apply round2_mono
  apply max_le_max (le_refl _)
  apply min_le_min (le_refl _)
  apply add_le_add_right
  set x1 := pricePositionOf p1 m
  set x2 := pricePositionOf p2 m
  have hbase :
      (if x2 < 3/10 then (75:ℚ)/100 else if x2 > 7/10 then 25/100 else 50/100) ≤
        (if x1 < 3/10 then (75:ℚ)/100 else if x1 > 7/10 then 25/100 else 50/100) := by
    split_ifs <;> linarith
  split_ifs <;> linarith

/-- C10 (witness): on the July LHR-JFK profile with all draws fixed, raising
the price from 600 to 900 does not raise probabilityIncrease. -/
theorem C10_probability_monotone_witness :
    ((selectedMonthData "LHR-JFK" 7).minPrice <
        (selectedMonthData "LHR-JFK" 7).maxPrice ∧ (600:ℚ) < 900) ∧
    (calculateProbabilities env0 900 (selectedMonthData "LHR-JFK" 7)
        (pricePositionOf 900 (selectedMonthData "LHR-JFK" 7)) dep7).1 ≤
      (calculateProbabilities env0 600 (selectedMonthData "LHR-JFK" 7)
        (pricePositionOf 600 (selectedMonthData "LHR-JFK" 7)) dep7).1 := by
  have hsel : selectedMonthData "LHR-JFK" 7 = ⟨"LHR-JFK", 7, 750, 680, 820, 11/100⟩ := rfl
  refine ⟨⟨by rw [hsel]; norm_num, by norm_num⟩, ?_⟩
  exact C10_probability_monotone env0 _ dep7 600 900 (by rw [hsel]; norm_num) (by norm_num)

/-- C1 (amended): the simple model recommends BUY_NOW exactly when the price
is strictly below every synthesized weekly price of the trailing 4-week window
(the `isLowestPriceInRecentWeeks` test), or the price position is below 0.6,
or probabilityIncrease is at least 0.65 — and for LHR-JFK in July at price 690
(profile min 680, max 820) the price position is 1/14 ≈ 0.071 and the
recommendation is BUY_NOW. -/
theorem C1_recommendation_rule :
    (∀ (env : Env) (cp : ℚ) (origin destination : String) (dep : JSDate)
        (currency : String),
      (generatePrediction env cp origin destination dep currency).recommendation =
          .BUY_NOW ↔
        (isLowestPriceInRecentWeeks env cp (origin ++ "-" ++ destination) 4 = true ∨
          pricePositionOf cp
            (selectedMonthData (origin ++ "-" ++ destination) dep.month) < 6/10 ∨
          (calculateProbabilities env cp
            (selectedMonthData (origin ++ "-" ++ destination) dep.month)
            (pricePositionOf cp
              (selectedMonthData (origin ++ "-" ++ destination) dep.month)) dep).1 ≥
            65/100)) ∧
    (∀ (env : Env) (dep : JSDate), dep.month = 7 →
      (generatePrediction env 690 "LHR" "JFK" dep "GBP").recommendation = .BUY_NOW ∧
      pricePositionOf 690 (selectedMonthData "LHR-JFK" 7) = 1/14) := by
  have hsel : selectedMonthData "LHR-JFK" 7 = ⟨"LHR-JFK", 7, 750, 680, 820, 11/100⟩ := rfl
  have hpos : pricePositionOf 690 (selectedMonthData "LHR-JFK" 7) = 1/14 := by
    rw [hsel]; norm_num [pricePositionOf]
  constructor
  · intro env cp origin destination dep currency
    dsimp only [generatePrediction]
    split_ifs with h1 h2 h3
    · exact iff_of_true rfl (Or.inl h1)
    · exact iff_of_true rfl (Or.inr (Or.inl h2))
    · exact iff_of_true rfl (Or.inr (Or.inr h3))
    · constructor
      · intro hcontra
        exact absurd hcontra (by decide)
      · rintro (h | h | h)
        exacts [absurd h h1, absurd h h2, absurd h h3]
  · intro env dep h
    refine ⟨?_, hpos⟩
    obtain ⟨mth, tms⟩ := dep
    have h7 : mth = 7 := h
    subst h7
    dsimp only [generatePrediction]
    have hstr : "LHR" ++ "-" ++ "JFK" = "LHR-JFK" := rfl
    split_ifs with h1 h2 h3
    · rfl
    · rfl
    · rfl
    · exfalso
      apply h2
      rw [hstr]
      rw [hpos]
      norm_num

/-- C1 (counterexample): the claimed value "pricePosition ≈ 0.147" fails —
(690 − 680)/(820 − 680) is 1/14 ≈ 0.071, more than half of 0.147 away from
0.147. -/
theorem C1_price_position_not_0147 :
    pricePositionOf 690 (selectedMonthData "LHR-JFK" 7) = 1/14 ∧
    |(1/14 : ℚ) - 147/1000| > 147/2000 := by
  have hsel : selectedMonthData "LHR-JFK" 7 = ⟨"LHR-JFK", 7, 750, 680, 820, 11/100⟩ := rfl
  constructor
  · rw [hsel]; norm_num [pricePositionOf]
  · rw [abs_of_neg (by norm_num)]; norm_num

/-- C1 (witness): the July scenario instantiated at a concrete environment. -/
theorem C1_recommendation_rule_witness :
    (generatePrediction env0 690 "LHR" "JFK" dep7 "GBP").recommendation = .BUY_NOW ∧
    pricePositionOf 690 (selectedMonthData "LHR-JFK" 7) = 1/14 :=
  C1_recommendation_rule.2 env0 dep7 rfl

/-- C3 (code bug): `calculateEnhancedConfidence` ends with
`Math.max(0.65, Math.min(0.98, Math.round(confidence * 100)))` — the clamp
bounds were left on the 0–1 scale while the value has been rescaled to 0–100,
so for this concrete route data (and in fact whenever the rounded value is at
least 1) the function returns 0.98, which is not in the [65, 98] band the
specification declares on the 0–100 confidence scale. -/
theorem C3_enhanced_confidence_collapsed :
    calculateEnhancedConfidence rd0 factors0 = 49/50 ∧ ¬((65 : ℚ) ≤ 49/50) := by
  have hfac : factors0 = ⟨1, 1, 1/5, 9/10, 3/10⟩ := by
    simp only [factors0, calculatePredictionFactors, rd0, seasonalLookup, bookingLookup,
      dayLookup, bookingDataFor, getClosestBookingWindow, avgVolatility,
      calculateMarketTrendWeight, List.find?]
    norm_num
  constructor
  · rw [hfac]
    simp only [calculateEnhancedConfidence, rd0, avgVolatility]
    norm_num [jsRound]
  · norm_num

/-- C6 (amended): every trial recorded by `performBacktesting` arises from the
per-index trial constructor `mkTrial`, and in every recorded trial the actual
future price compared against is the point chosen by `findClosestFuturePrice`
— the first future point whose departureDate equals the prediction point's and
whose bookingDaysAhead is within ±2 of (bookingDaysAhead − 7), or, when no
such point exists, simply the first future point — and the trial's outcome is
CORRECT exactly when (BUY_NOW and the chosen price rose strictly) or (WAIT and
the chosen price fell or held). -/
theorem C6_backtest_trial_spec :
    (∀ (now : ℤ) (data : List RealHistoricalPrice) (period : ℤ)
        (r : BacktestResult), r ∈ performBacktesting now data period →
      ∃ (route : String) (i : ℕ),
        mkTrial route (data.filter (fun d => d.route == route))
          ((data.filter (fun d => d.route == route)).filter
            (fun d => now - period * 86400000 ≤ d.date)) i = some r) ∧
    (∀ (route : String) (data testData : List RealHistoricalPrice) (i : ℕ)
        (r : BacktestResult), mkTrial route data testData i = some r →
      ∃ c, findClosestFuturePrice ((testData.drop (i + 1)).take 7)
            (testData.getD i default).departureDate
            ((testData.getD i default).bookingDaysAhead - 7) = some c ∧
          r.actualPrice = c.price ∧
          (r.actualOutcome = .CORRECT ↔
            ((r.recommendation = .BUY_NOW ∧ (testData.getD i default).price < c.price) ∨
              (r.recommendation = .WAIT ∧
                c.price ≤ (testData.getD i default).price)))) := by
  constructor
  · intro now data period r hr
    simp only [performBacktesting] at hr
    rw [List.mem_flatMap] at hr
    obtain ⟨route, hroute, hr2⟩ := hr
    rw [List.mem_filterMap] at hr2
    obtain ⟨i, hi, hmk⟩ := hr2
    exact ⟨route, i, hmk⟩
  · intro route data testData i r hmk
    simp only [mkTrial] at hmk
    split at hmk
    · exact absurd hmk (by simp)
    · split at hmk
      · exact absurd hmk (by simp)
      · rename_i c hfc
        rw [Option.some_inj] at hmk
        subst hmk
        refine ⟨c, hfc, rfl, ?_⟩
        dsimp only
        split_ifs with hc
        · refine iff_of_true rfl ?_
          rcases hc with ⟨hb, hp⟩ | ⟨hw, hp⟩
          · exact Or.inl ⟨hb, hp⟩
          · exact Or.inr ⟨hw, not_lt.mp hp⟩
        · constructor
          · intro h
            exact absurd h (by decide)
          · rintro (⟨hb, hp⟩ | ⟨hw, hp⟩)
            · exact absurd (Or.inl ⟨hb, hp⟩) hc
            · exact absurd (Or.inr ⟨hw, not_lt.mpr hp⟩) hc

/-- C6 (witness): the trial on `backtestData` instantiates the amended
description: its comparison point exists and the outcome rule holds. -/
theorem C6_backtest_trial_spec_witness :
    ∃ c, findClosestFuturePrice ((backtestData.drop 1).take 7)
          (backtestData.getD 0 default).departureDate
          ((backtestData.getD 0 default).bookingDaysAhead - 7) = some c ∧
        fallbackTrial.actualPrice = c.price ∧
        (fallbackTrial.actualOutcome = .CORRECT ↔
          ((fallbackTrial.recommendation = .BUY_NOW ∧
              (backtestData.getD 0 default).price < c.price) ∨
            (fallbackTrial.recommendation = .WAIT ∧
              c.price ≤ (backtestData.getD 0 default).price))) :=
  C6_backtest_trial_spec.2 "R" backtestData backtestData 0 fallbackTrial (by
    simp only [mkTrial, backtestData, backtestPoint, backtestFuture, fallbackTrial,
      makePredictionForBacktest, findClosestFuturePrice, List.find?]
    norm_num
    intro h
    exact Rec.noConfusion h)

/-- C6 (counterexample): on `backtestData` a trial is recorded whose actual
price (999) is the fallback first future point, although no future point in
the window matches the claimed departure-date and ±2-day booking-window rule. -/
theorem C6_backtest_fallback_used :
    performBacktesting 0 backtestData 90 = [fallbackTrial] ∧
    backtestFuture.find? (fun p =>
        p.departureDate == backtestPoint.departureDate &&
          (p.bookingDaysAhead - (backtestPoint.bookingDaysAhead - 7)).natAbs ≤ 2) =
      none := by
  constructor
  · have hmk : mkTrial "R" backtestData backtestData 0 = some fallbackTrial := by
      simp only [mkTrial, backtestData, backtestPoint, backtestFuture, fallbackTrial,
        makePredictionForBacktest, findClosestFuturePrice, List.find?]
      norm_num
      intro h
      exact Rec.noConfusion h
    have hkeys : routeKeys backtestData = ["R"] := by
      simp [routeKeys, backtestData, backtestPoint, backtestFuture]
    have hf1 : backtestData.filter (fun d => d.route == "R") = backtestData := by
      simp [backtestData, backtestPoint, backtestFuture]
    have hf2 : backtestData.filter (fun d => (0 : ℤ) - 90 * 86400000 ≤ d.date) =
        backtestData := by
      simp [backtestData, backtestPoint, backtestFuture]
    have hlen : backtestData.length = 8 := by simp [backtestData, backtestFuture]
    simp only [performBacktesting, hkeys, List.flatMap_cons, List.flatMap_nil,
      List.append_nil, hf1, hf2, hlen]
    norm_num [List.filterMap, hmk]
  · decide

/-- C4 (code bug): `getAverageFlightPrices` pushes the source tag
`'Aviasales (Weighted)'` but the both-sources bonus tests
`sources.includes('Aviasales')`, which is never true, so the +10 bonus the
inline comment ("Bonus for having both real and synthetic data") and the
specification promise is never added: on a run where Aviasales contributed
(weighted and simple averages 750, no recent flights) for LHR-JFK in July the
pool is [750, 750, 680, 750, 820] with coefficient of variation below 0.15,
both a real and the synthetic source are listed, and the returned confidence
is 85 — not the clamp of 75 + 10 + 10 = 95 the claim computes. -/
theorem C4_aggregator_confidence_missing_bonus :
    ((getAverageFlightPrices env0 (some avia0) "LHR" "JFK" dep7 "GBP").map
        (fun d => d.confidence) = some 85) ∧
    ((getAverageFlightPrices env0 (some avia0) "LHR" "JFK" dep7 "GBP").map
        (fun d => d.sources) =
      some ["Aviasales (Weighted)", "Synthetic Data (FlightPriceIQ)"]) ∧
    (85 : ℚ) ≠ max 50 (min 95 (75 + 10 + 10)) := by
  have hrange : ∀ cp : ℚ, (generatePrediction env0 cp "LHR" "JFK" dep7 "GBP").priceRange =
      ⟨680, 820, 750⟩ := fun _ => rfl
  have hpool : pricePool env0 (some avia0) "LHR" "JFK" dep7 "GBP" =
      ([750, 750, 680, 750, 820],
        ["Aviasales (Weighted)", "Synthetic Data (FlightPriceIQ)"]) := by
    simp only [pricePool, avia0, hrange]
    norm_num
  have hconf : aggregatorConfidence [750, 750, 680, 750, 820]
      ["Aviasales (Weighted)", "Synthetic Data (FlightPriceIQ)"] = 85 := by
    have hsqrt : Real.sqrt 1960 / 750 < 3/20 := by
      rw [div_lt_iff₀ (by norm_num)]
      rw [Real.sqrt_lt' (by norm_num)]
      norm_num
    simp only [aggregatorConfidence]
    norm_num [jsRound]
    rw [if_pos hsqrt, if_neg (by decide)]
    norm_num
  refine ⟨?_, ?_, by norm_num⟩
  · simp only [getAverageFlightPrices, hpool, hconf]
    norm_num
  · simp only [getAverageFlightPrices, hpool]
    norm_num

/-- C5: `calculateValidationMetrics` raises exactly on an empty backtest list;
on a non-empty list it reports accuracy = correct/total, the mean absolute
error, the root of the mean squared error, and the 95% normal-approximation
confidence interval accuracy ± 1.96·√(accuracy·(1−accuracy)/n) with the lower
bound clamped at 0 and the upper at 1 — accuracy and the interval as rounded
percentages with two decimals, MAE and RMSE rounded to two decimals. -/
theorem C5_validation_metrics_spec :
    (∀ results : List BacktestResult, results = [] →
      calculateValidationMetrics results =
        .error "No backtest results available for validation") ∧
    (∀ results : List BacktestResult, results ≠ [] →
      calculateValidationMetrics results = .ok
        { accuracy := (jsRoundR ((((results.filter
              (fun r => r.actualOutcome = .CORRECT)).length : ℝ) /
              results.length) * 10000) : ℝ) / 100
          meanAbsoluteError := (jsRoundR
              (((results.map (fun r => (r.error : ℝ))).sum / results.length) * 100) : ℝ) / 100
          rootMeanSquareError := (jsRoundR (Real.sqrt
              ((results.map (fun r => (r.error : ℝ) ^ 2)).sum / results.length) * 100) : ℝ) / 100
          ciLower := (jsRoundR ((max 0
              ((((results.filter (fun r => r.actualOutcome = .CORRECT)).length : ℝ) /
                  results.length) -
                196/100 * Real.sqrt
                  (((((results.filter (fun r => r.actualOutcome = .CORRECT)).length : ℝ) /
                      results.length) *
                    (1 - (((results.filter (fun r => r.actualOutcome = .CORRECT)).length : ℝ) /
                      results.length))) / results.length))) * 10000) : ℝ) / 100
          ciUpper := (jsRoundR ((min 1
              ((((results.filter (fun r => r.actualOutcome = .CORRECT)).length : ℝ) /
                  results.length) +
                196/100 * Real.sqrt
                  (((((results.filter (fun r => r.actualOutcome = .CORRECT)).length : ℝ) /
                      results.length) *
                    (1 - (((results.filter (fun r => r.actualOutcome = .CORRECT)).length : ℝ) /
                      results.length))) / results.length))) * 10000) : ℝ) / 100
          ciLevel := 95
          sampleSize := results.length
          periodStart := results.headI.predictionDate
          periodEnd := (results.getLastD default).predictionDate }) := by
  constructor
  · intro results h
    subst h
    rfl
  · intro results h
    simp only [calculateValidationMetrics]
    rw [if_neg (by simpa using h)]
    have hfun : ((fun e : ℝ => e * e) ∘ fun r : BacktestResult => (r.error : ℝ)) =
        (fun r : BacktestResult => (r.error : ℝ) ^ 2) := by
      funext r
      simp [Function.comp, sq]
    simp only [List.length_map, List.map_map, hfun]

/-- C5 (witness): the error branch fires on the empty list, and a singleton
list of results produces a value. -/
theorem C5_validation_metrics_spec_witness :
    calculateValidationMetrics [] =
      .error "No backtest results available for validation" ∧
    (calculateValidationMetrics [perfectTrial]).isOk = true :=
  ⟨C5_validation_metrics_spec.1 [] rfl, by
    rw [C5_validation_metrics_spec.2 [perfectTrial] (by simp)]
    rfl⟩
